import Mathlib

/-!
# Verification of the Confluence freshness checker

A shallow embedding of `engineering_health_check/confluence_checker.py`
and proofs about its pagination loop (`iterate_pages`), timestamp
extraction (`get_last_modified`), freshness analysis (`analyze`),
configuration loading (`load_config`) and session construction
(`make_session`).

Modelling conventions:
* JSON / Python values are the inductive `JVal`; Python `None` and JSON
  `null` are both `JVal.null` (they coincide in truthiness and in every
  operation the script performs).
* Python truthiness is `JVal.truthy`.
* `dict.get(k)` is `pyGet` (absent key gives `JVal.null`, i.e. `None`);
  `dict.get(k, d)` is `pyGetD`.
* Code that can raise an uncaught exception is embedded in
  `Except String`, the error string naming the Python exception class.
* `datetime` values are integers: seconds since the Unix epoch, UTC.
  (`datetime` has microsecond resolution, but no property verified here
  distinguishes below one second.)  A naive datetime is interpreted as
  UTC, which is exactly what `lm.replace(tzinfo=utc)` in `analyze`
  does, so the naive/aware distinction is invisible and not modelled.
* `datetime.datetime.fromisoformat(when.replace("Z", "+00:00"))` is
  abstracted as a parameter `parseIso : String → Option Int`: the
  stdlib ISO-8601 parser composed with the `"Z" → "+00:00"` rewrite,
  returning the UTC epoch seconds on success and `none` when
  `fromisoformat` raises.  Theorems quantify over `parseIso`.
-/

/-- A JSON / Python value, as far as the script inspects one.
`null` stands for both JSON `null` and Python `None`. -/
inductive JVal where
  | null
  | str (s : String)
  | num (n : Int)
  | bool (b : Bool)
  | list (xs : List JVal)
  | dict (kvs : List (String × JVal))

/-- Python truthiness of a value (`if v:`). -/
def JVal.truthy : JVal → Bool
  | .null => false
  | .str s => !s.isEmpty
  | .num n => n != 0
  | .bool b => b
  | .list xs => !xs.isEmpty
  | .dict kvs => !kvs.isEmpty

/-- Is the value a mapping (a Python `dict`)? -/
def JVal.isDict : JVal → Bool
  | .dict _ => true
  | _ => false

/-- Is the value Python `None` / JSON `null`? -/
def JVal.isNull : JVal → Bool
  | .null => true
  | _ => false

/-- Dictionary lookup: `some v` when key `k` is present with value `v`. -/
def dictGet (kvs : List (String × JVal)) (k : String) : Option JVal :=
  (kvs.find? (fun p => p.1 == k)).map (·.2)

/-- Python `d.get(k)`: the value when present, else `None`. -/
def pyGet (kvs : List (String × JVal)) (k : String) : JVal :=
  (dictGet kvs k).getD JVal.null

/-- Python `d.get(k, default)`: the value when present, else `default`. -/
def pyGetD (kvs : List (String × JVal)) (k : String) (d : JVal) : JVal :=
  (dictGet kvs k).getD d

/-- Python `a or b`: `a` when truthy, else `b`. -/
def pyOr (a b : JVal) : JVal :=
  if a.truthy then a else b

/-- A page record as returned by the API: a Python dict. -/
abbrev Item : Type := List (String × JVal)

/-!
## `load_config`

```python
if not os.path.exists(path):
    return {}
with open(path, "r", encoding="utf-8") as fh:
    return yaml.safe_load(fh) or {}
```

The filesystem and the YAML parser are outside the program: the input is
`none` when the config file does not exist, and `some v` when it exists
and `yaml.safe_load` returns the value `v` (`JVal.null` for an empty
document).
-/

/-- `load_config`: empty dict when the file is absent; otherwise the
parsed document, with any falsy document (in particular `None` from an
empty file) replaced by the empty dict (`... or {}`). -/
def load_config (file : Option JVal) : JVal :=
  match file with
  | none => JVal.dict []
  | some v => pyOr v (JVal.dict [])

/-!
## `make_session`

```python
session = requests.Session()
session.auth = (config.get("username"), config.get("api_token"))
return session
```
-/

/-- The one attribute of `requests.Session` the script sets: `auth` is
`none` for a fresh session and `some (u, t)` once assigned a 2-tuple. -/
structure Session where
  auth : Option (JVal × JVal)

/-- `make_session`: unconditionally assigns the 2-tuple
`(config.get("username"), config.get("api_token"))` to `session.auth`. -/
def make_session (config : List (String × JVal)) : Session :=
  { auth := some (pyGet config "username", pyGet config "api_token") }

/-- Whether requests attaches a basic-auth `Authorization` header for a
session.  Modelled from the `requests` library (`PreparedRequest.prepare_auth`):
any non-`None` `auth` value is applied — a 2-tuple, even `(None, None)`,
is truthy and is converted to `HTTPBasicAuth`, whose header is built with
`str(username)` / `str(password)` (so `(None, None)` yields the literal
credentials `"None:None"`). -/
def attachesBasicAuth (s : Session) : Bool :=
  match s.auth with
  | none => false
  | some _ => true

/-!
## `iterate_pages`

One iteration of the `while True:` loop, after the HTTP response `data`
(a JSON object) has been received:

```python
results = data.get("results") or data.get("page") or data.get("values")
if results is None:
    results = data.get("results", [])

for item in results:
    yield item

size = data.get("size")
if size is None:
    if not results:
        break
    start += len(results)
else:
    start += size

links = data.get("_links", {})
if not links.get("next") and (not results or len(results) < limit):
    break
```
-/

/-- The value bound to `results` after the fallback chain: the first
truthy value among the `"results"`, `"page"` and `"values"` fields (by
Python `or`), and when the whole chain yields `None`,
`data.get("results", [])`. -/
def extractedResults (data : List (String × JVal)) : JVal :=
  match pyOr (pyGet data "results") (pyOr (pyGet data "page") (pyGet data "values")) with
  | JVal.null => pyGetD data "results" (JVal.list [])
  | v => v

/-- The record list iterated by `for item in results`.  Iterating a
non-list value is modelled as a `TypeError` (Python raises for `None`,
numbers and booleans; `str`/`dict` values would iterate over characters
or keys, which no claim exercises). -/
def resultsItems (data : List (String × JVal)) : Except String (List JVal) :=
  match extractedResults data with
  | JVal.list xs => Except.ok xs
  | _ => Except.error "TypeError"

/-- The increment applied by `start += size`: `none` models `size is
None` (field absent or JSON null), a number adds itself, a boolean adds
its integer value (Python `bool` is an `int`), and any other value makes
`start += size` raise a `TypeError`. -/
def sizeDelta : JVal → Except String (Option Int)
  | JVal.null => Except.ok none
  | JVal.num n => Except.ok (some n)
  | JVal.bool b => Except.ok (some (if b then 1 else 0))
  | _ => Except.error "TypeError"

/-- Truthiness of `data.get("_links", {}).get("next")`; `.get` on a
non-dict `_links` value raises `AttributeError`. -/
def linksNext (data : List (String × JVal)) : Except String Bool :=
  match pyGetD data "_links" (JVal.dict []) with
  | JVal.dict kvs => Except.ok (pyGet kvs "next").truthy
  | _ => Except.error "AttributeError"

/-- One iteration of the pagination loop on response `data` at offset
`start`: yields the records of this page, and `some start'` when the
loop goes on to issue the next request at offset `start'`, or `none`
when it hits a `break`. -/
def iterStep (limit : Int) (start : Int) (data : List (String × JVal)) :
    Except String (List JVal × Option Int) := do
  let items ← resultsItems data
  let delta ← sizeDelta (pyGet data "size")
  match delta with
  | none =>
    if items.isEmpty then
      Except.ok (items, none)
    else do
      let nxt ← linksNext data
      if !nxt && (items.isEmpty || (items.length : Int) < limit) then
        Except.ok (items, none)
      else
        Except.ok (items, some (start + (items.length : Int)))
  | some s => do
    let nxt ← linksNext data
    if !nxt && (items.isEmpty || (items.length : Int) < limit) then
      Except.ok (items, none)
    else
      Except.ok (items, some (start + s))

/-- The whole `while True:` loop, the server being a function from the
requested offset to the JSON response body, with explicit fuel bounding
the number of requests (the Python loop has no bound of its own).
Returns the yielded records and the number of requests issued;
`Except.error "fuel"` means the loop was still issuing requests when the
fuel ran out. -/
def iterate_pages (limit : Int) (server : Int → List (String × JVal)) :
    Nat → Int → Except String (List JVal × Nat)
  | 0, _ => Except.error "fuel"
  | fuel + 1, start => do
    let (items, nxt) ← iterStep limit start (server start)
    match nxt with
    | none => Except.ok (items, 1)
    | some start' => do
      let (rest, n) ← iterate_pages limit server fuel start'
      Except.ok (items ++ rest, n + 1)

/-!
## `get_last_modified`

```python
version = item.get("version") or {}
when = version.get("when")
if when:
    try:
        return datetime.datetime.fromisoformat(when.replace("Z", "+00:00"))
    except Exception:
        pass
return None
```
-/

/-- `get_last_modified`: the parsed UTC timestamp of a record, `none`
when absent or unparsable.  `version.get("when")` raises
`AttributeError` when `item["version"]` is truthy but not a dict (the
`try` has not started yet there); a truthy non-string `when` raises
inside the `try` (`when.replace`) and is swallowed to `None`, as is a
`fromisoformat` failure. -/
def get_last_modified (parseIso : String → Option Int) (item : Item) :
    Except String (Option Int) :=
  match pyOr (pyGet item "version") (JVal.dict []) with
  | JVal.dict kvs =>
    if (pyGet kvs "when").truthy then
      match pyGet kvs "when" with
      | JVal.str s => Except.ok (parseIso s)
      | _ => Except.ok none
    else
      Except.ok none
  | _ => Except.error "AttributeError"

/-!
## `analyze`

```python
total = 0
stale = 0
now = datetime.datetime.now(datetime.timezone.utc)
threshold = datetime.timedelta(days=threshold_days)

for item in iterate_pages(...):
    total += 1
    lm = get_last_modified(item)
    if lm is None:
        stale += 1
        continue
    if lm.tzinfo is None:
        lm = lm.replace(tzinfo=datetime.timezone.utc)
    if now - lm > threshold:
        stale += 1

percent_stale = (stale / total * 100.0) if total else 0.0
return {"total": total, "stale": stale, "percent_stale": percent_stale}
```

`analyze` is stated over the list of records the paginator yields; the
tzinfo normalisation is the identity under the epoch-seconds model.
-/

/-- The summary `analyze` returns. -/
structure Summary where
  total : Nat
  stale : Nat
  percent_stale : Rat

/-- The accumulation loop of `analyze`: `acc` is `(total, stale)`.
`timedelta(days=thresholdDays)` compares as `thresholdDays * 86400`
seconds, and staleness is the strict `now - lm > threshold`. -/
def analyzeLoop (parseIso : String → Option Int) (now thresholdDays : Int) :
    Nat × Nat → List Item → Except String (Nat × Nat)
  | acc, [] => Except.ok acc
  | acc, item :: rest => do
    let lm ← get_last_modified parseIso item
    match lm with
    | none => analyzeLoop parseIso now thresholdDays (acc.1 + 1, acc.2 + 1) rest
    | some t =>
      if now - t > thresholdDays * 86400 then
        analyzeLoop parseIso now thresholdDays (acc.1 + 1, acc.2 + 1) rest
      else
        analyzeLoop parseIso now thresholdDays (acc.1 + 1, acc.2) rest

/-- `analyze` on the record list the paginator yields. -/
def analyze (parseIso : String → Option Int) (now thresholdDays : Int)
    (records : List Item) : Except String Summary := do
  let (total, stale) ← analyzeLoop parseIso now thresholdDays (0, 0) records
  let percent_stale : Rat := if total ≠ 0 then (stale : Rat) / (total : Rat) * 100 else 0
  Except.ok ⟨total, stale, percent_stale⟩

/-!
## Concrete response bodies and claim-scope predicates
-/

/-- A record whose version metadata carries the timestamp string `s`. -/
def whenRecord (s : String) : Item :=
  [("version", JVal.dict [("when", JVal.str s)])]

/-- Scope of the conservative-staleness claim, following the spec: the
record's version metadata (absent, falsy, or a mapping) yields no
timestamp string — no truthy `"when"` string value — or its timestamp
string fails to parse. -/
def noParsableTimestamp (parseIso : String → Option Int) (item : Item) : Bool :=
  match pyOr (pyGet item "version") (JVal.dict []) with
  | JVal.dict kvs =>
    match pyGet kvs "when" with
    | JVal.str s => s.isEmpty || (parseIso s).isNone
    | _ => true
  | _ => false

/-- A server response carrying an empty results array together with a
`"size"` field and a `"_links.next"` indicator. -/
def emptyPageWithSizeAndNext : List (String × JVal) :=
  [("results", JVal.list []), ("size", JVal.num 0),
   ("_links", JVal.dict [("next", JVal.str "/rest/api/content?start=0")])]

/-- A response body where the `"results"` field is present with an empty
array while the `"page"` field holds one record. -/
def emptyResultsThenPage : List (String × JVal) :=
  [("results", JVal.list []), ("page", JVal.list [JVal.dict []])]

/-- A response with two records, a server-reported `"size"` of 2 and a
next link. -/
def twoRecordPageWithSize : List (String × JVal) :=
  [("results", JVal.list [JVal.dict [], JVal.dict []]), ("size", JVal.num 2),
   ("_links", JVal.dict [("next", JVal.str "/rest/api/content?start=2")])]

/-!
## Helper lemmas
-/

/-- Unfolds `analyze` once the accumulation loop's result is known. -/
theorem analyze_eq (pi : String → Option Int) (now T : Int) (l : List Item)
    (tot st : Nat) (h : analyzeLoop pi now T (0, 0) l = Except.ok (tot, st)) :
    analyze pi now T l
      = Except.ok ⟨tot, st, if tot ≠ 0 then (st : Rat) / (tot : Rat) * 100 else 0⟩ := by
  unfold analyze
  rw [h]
  rfl

/-- One loop iteration on a record whose timestamp extraction raised. -/
theorem analyzeLoop_cons_error (pi : String → Option Int) (now T : Int)
    (acc : Nat × Nat) (item : Item) (rest : List Item) (e : String)
    (h : get_last_modified pi item = Except.error e) :
    analyzeLoop pi now T acc (item :: rest) = Except.error e := by
  simp only [analyzeLoop]
  rw [h]
  rfl

/-- One loop iteration on a record with no usable timestamp. -/
theorem analyzeLoop_cons_none (pi : String → Option Int) (now T : Int)
    (acc : Nat × Nat) (item : Item) (rest : List Item)
    (h : get_last_modified pi item = Except.ok none) :
    analyzeLoop pi now T acc (item :: rest)
      = analyzeLoop pi now T (acc.1 + 1, acc.2 + 1) rest := by
  simp only [analyzeLoop]
  rw [h]
  rfl

/-- One loop iteration on a record with a parsed timestamp `t`. -/
theorem analyzeLoop_cons_some (pi : String → Option Int) (now T : Int)
    (acc : Nat × Nat) (item : Item) (rest : List Item) (t : Int)
    (h : get_last_modified pi item = Except.ok (some t)) :
    analyzeLoop pi now T acc (item :: rest)
      = if now - t > T * 86400 then analyzeLoop pi now T (acc.1 + 1, acc.2 + 1) rest
        else analyzeLoop pi now T (acc.1 + 1, acc.2) rest := by
  simp only [analyzeLoop]
  rw [h]
  rfl

/-- Loop invariant: the final `(total, stale)` adds the list length to
`total`, and `stale ≤ total` is preserved. -/
theorem analyzeLoop_spec (pi : String → Option Int) (now T : Int) :
    ∀ (l : List Item) (acc r : Nat × Nat),
      analyzeLoop pi now T acc l = Except.ok r →
      r.1 = acc.1 + l.length ∧ (acc.2 ≤ acc.1 → r.2 ≤ r.1) := by
  intro l
  induction l with
  | nil =>
    intro acc r h
    simp only [analyzeLoop] at h
    cases h
    simp
  | cons item rest ih =>
    intro acc r h
    rcases hg : get_last_modified pi item with e | lm
    · rw [analyzeLoop_cons_error pi now T acc item rest e hg] at h
      cases h
    · cases lm with
      | none =>
        rw [analyzeLoop_cons_none pi now T acc item rest hg] at h
        have h1 := (ih (acc.1 + 1, acc.2 + 1) r h).1
        have h2 := (ih (acc.1 + 1, acc.2 + 1) r h).2
        exact ⟨by simp at h1 ⊢; omega, fun hle => h2 (by omega)⟩
      | some t =>
        rw [analyzeLoop_cons_some pi now T acc item rest t hg] at h
        split at h
        · have h1 := (ih (acc.1 + 1, acc.2 + 1) r h).1
          have h2 := (ih (acc.1 + 1, acc.2 + 1) r h).2
          exact ⟨by simp at h1 ⊢; omega, fun hle => h2 (by omega)⟩
        · have h1 := (ih (acc.1 + 1, acc.2) r h).1
          have h2 := (ih (acc.1 + 1, acc.2) r h).2
          exact ⟨by simp at h1 ⊢; omega, fun hle => h2 (by omega)⟩

/-!
## Claims
-/

/-- C5: when the config file is absent `load_config` yields the empty
mapping, but `make_session` then sets `session.auth` to the tuple
`(None, None)` rather than leaving the session unauthenticated, so
requests attaches a basic-auth `Authorization` header built from the
literal strings `"None"`/`"None"`.  This contradicts the claim and the
function's own docstring ("If those keys are missing the session will
be returned without authentication"): the code is the slip. -/
theorem make_session_empty_config_attaches_auth :
    load_config none = JVal.dict [] ∧
    make_session [] = ⟨some (JVal.null, JVal.null)⟩ ∧
    attachesBasicAuth (make_session []) = true :=
  ⟨rfl, rfl, rfl⟩

/-- C7: whenever `analyze` returns a summary, the stale count is at most
the total, and the total is exactly the number of records the paginator
yielded. -/
theorem analyze_stale_le_total (pi : String → Option Int) (now T : Int)
    (records : List Item) (summary : Summary)
    (h : analyze pi now T records = Except.ok summary) :
    summary.stale ≤ summary.total ∧ summary.total = records.length := by
  rcases hl : analyzeLoop pi now T (0, 0) records with e | p
  · have herr : analyze pi now T records = Except.error e := by
      unfold analyze
      rw [hl]
      rfl
    rw [herr] at h
    cases h
  · obtain ⟨tot, st⟩ := p
    have ha := analyze_eq pi now T records tot st hl
    rw [ha] at h
    have hs := Except.ok.inj h
    have hspec := analyzeLoop_spec pi now T records (0, 0) (tot, st) hl
    subst hs
    exact ⟨hspec.2 (Nat.le_refl 0), by simpa using hspec.1⟩

/-- Witness for C7: a one-record scan (the record, an empty dict, has no
timestamp and is counted stale) satisfies `stale ≤ total` and
`total = 1`. -/
theorem analyze_stale_le_total_witness :
    analyze (fun _ => none) 0 90 [[]] = Except.ok ⟨1, 1, 100⟩ ∧
    (⟨1, 1, 100⟩ : Summary).stale ≤ (⟨1, 1, 100⟩ : Summary).total ∧
    (⟨1, 1, 100⟩ : Summary).total = [([] : Item)].length := by
  have ha : analyze (fun _ => none) 0 90 [[]] = Except.ok ⟨1, 1, 100⟩ :=
    (analyze_eq (fun _ => none) 0 90 [[]] 1 1 rfl).trans (by norm_num)
  exact ⟨ha, analyze_stale_le_total (fun _ => none) 0 90 [[]] ⟨1, 1, 100⟩ ha⟩

/-- C8: on an empty record sequence `analyze` returns
`percent_stale = 0` for every threshold: the `total` guard makes the
division branch unreachable and the result is the literal `0.0`. -/
theorem analyze_empty_percent_zero (pi : String → Option Int) (now T : Int) :
    analyze pi now T [] = Except.ok ⟨0, 0, 0⟩ :=
  (analyze_eq pi now T [] 0 0 rfl).trans (by norm_num)

/-- Counterexample to C9: a record whose `"version"` value is a truthy
non-mapping (here the string `"v1"`) makes `get_last_modified` raise
`AttributeError` (`version.get("when")` on a `str`, before the `try`),
so the function is not total on arbitrary record dictionaries. -/
theorem get_last_modified_version_string_raises :
    get_last_modified (fun _ => none) [("version", JVal.str "v1")]
      = Except.error "AttributeError" := rfl

/-- C9 amended: `get_last_modified` never raises provided the
`"version"` value, after the `or {}` fallback, is a mapping — that is,
whenever `"version"` is absent, falsy (`None`, `""`, `0`, `[]`,
`false`, `{}`) or a dict; this covers every case the claim enumerates
(`"when"` absent, null, empty string, or non-string). -/
theorem get_last_modified_total_on_dict_version (pi : String → Option Int)
    (item : Item) (h : (pyOr (pyGet item "version") (JVal.dict [])).isDict = true) :
    ∃ r, get_last_modified pi item = Except.ok r := by
  rcases hv : pyOr (pyGet item "version") (JVal.dict []) with _ | s | n | b | xs | kvs
  · simp [hv, JVal.isDict] at h
  · simp [hv, JVal.isDict] at h
  · simp [hv, JVal.isDict] at h
  · simp [hv, JVal.isDict] at h
  · simp [hv, JVal.isDict] at h
  · rcases hw : pyGet kvs "when" with _ | s | n | b | xs | kvs2 <;>
      simp only [get_last_modified, hv, hw, JVal.truthy] <;>
      first
        | exact ⟨_, rfl⟩
        | (split <;> exact ⟨_, rfl⟩)

/-- Witness for C9's amended theorem: a record whose `"when"` value is
the number `5` (truthy, non-string) yields `Except.ok` — the
`AttributeError` from `when.replace` is swallowed by the `try`. -/
theorem get_last_modified_total_witness :
    (pyOr (pyGet [("version", JVal.dict [("when", JVal.num 5)])] "version")
        (JVal.dict [])).isDict = true ∧
    ∃ r, get_last_modified (fun _ => none) [("version", JVal.dict [("when", JVal.num 5)])]
      = Except.ok r :=
  ⟨rfl, get_last_modified_total_on_dict_version (fun _ => none)
    [("version", JVal.dict [("when", JVal.num 5)])] rfl⟩

/-- Counterexample to C10: a config file whose YAML document is the
truthy non-mapping `[1]` is returned as-is by `load_config`, so the
result is not always a mapping. -/
theorem load_config_list_not_mapping :
    load_config (some (JVal.list [JVal.num 1])) = JVal.list [JVal.num 1] ∧
    (load_config (some (JVal.list [JVal.num 1]))).isDict = false :=
  ⟨rfl, rfl⟩

/-- C10 amended: `load_config` never returns `None` — an absent file
and a file parsing to no data (`yaml.safe_load` returning `None`) both
yield the empty mapping — but a truthy non-mapping document is returned
unchanged. -/
theorem load_config_never_none (f : Option JVal) :
    (load_config f).isNull = false ∧ load_config none = JVal.dict []
      ∧ load_config (some JVal.null) = JVal.dict [] := by
  refine ⟨?_, rfl, rfl⟩
  rcases f with _ | v
  · rfl
  · rcases v with _ | s | n | b | xs | kvs <;>
      (simp only [load_config, pyOr]) <;>
      (first | rfl | (split <;> rfl))

/-!
## Further helper lemmas (Python `or`, results extraction, `iterStep`)
-/

/-- Python `or` keeps a truthy left operand. -/
theorem pyOr_truthy (a b : JVal) (h : a.truthy = true) : pyOr a b = a := by
  simp [pyOr, h]

/-- Python `or` falls through a falsy left operand. -/
theorem pyOr_falsy (a b : JVal) (h : a.truthy = false) : pyOr a b = b := by
  simp [pyOr, h]

/-- A truthy value is never `null`. -/
theorem truthy_not_null (v : JVal) (h : v.truthy = true) : v.isNull = false := by
  cases v <;> simp_all [JVal.truthy, JVal.isNull]

/-- The `results` fallback chain, written as a conditional on the
`or`-chain value. -/
theorem extractedResults_eq_ite (data : List (String × JVal)) :
    extractedResults data
      = if (pyOr (pyGet data "results")
              (pyOr (pyGet data "page") (pyGet data "values"))).isNull = true
        then pyGetD data "results" (JVal.list [])
        else pyOr (pyGet data "results") (pyOr (pyGet data "page") (pyGet data "values")) := by
  unfold extractedResults
  rcases h : pyOr (pyGet data "results") (pyOr (pyGet data "page") (pyGet data "values")) with
    _ | s | n | b | xs | kvs <;> simp [JVal.isNull]

/-- A record built by `whenRecord` parses through `parseIso` once its
timestamp string is nonempty. -/
theorem get_last_modified_whenRecord (pi : String → Option Int) (s : String)
    (he : s.isEmpty = false) :
    get_last_modified pi (whenRecord s) = Except.ok (pi s) := by
  have hv : pyOr (pyGet (whenRecord s) "version") (JVal.dict [])
      = JVal.dict [("when", JVal.str s)] := rfl
  have hw : pyGet [("when", JVal.str s)] "when" = JVal.str s := rfl
  simp only [get_last_modified, hv, hw, JVal.truthy, he]
  simp

/-- `iterStep` propagates a failure to extract an iterable results list. -/
theorem iterStep_results_error (limit start : Int) (data : List (String × JVal))
    (e : String) (hr : resultsItems data = Except.error e) :
    iterStep limit start data = Except.error e := by
  unfold iterStep
  rw [hr]
  rfl

/-- With a numeric `"size"` field and the next-link flag known,
`iterStep` either breaks or advances by that size. -/
theorem iterStep_num_size (limit start : Int) (data : List (String × JVal))
    (xs : List JVal) (n : Int) (b : Bool) (hr : resultsItems data = Except.ok xs)
    (hs : pyGet data "size" = JVal.num n) (hl : linksNext data = Except.ok b) :
    iterStep limit start data
      = if !b && (xs.isEmpty || (xs.length : Int) < limit) then Except.ok (xs, none)
        else Except.ok (xs, some (start + n)) := by
  unfold iterStep
  rw [hr, hs, hl]
  rfl

/-- With a numeric `"size"` field, a failing `_links` lookup propagates. -/
theorem iterStep_num_links_error (limit start : Int) (data : List (String × JVal))
    (xs : List JVal) (n : Int) (e : String) (hr : resultsItems data = Except.ok xs)
    (hs : pyGet data "size" = JVal.num n) (hl : linksNext data = Except.error e) :
    iterStep limit start data = Except.error e := by
  unfold iterStep
  rw [hr, hs, hl]
  rfl

/-- With no `"size"` field and a nonempty page, `iterStep` either breaks
or advances by the number of records returned. -/
theorem iterStep_no_size_cons (limit start : Int) (data : List (String × JVal))
    (x : JVal) (rest : List JVal) (b : Bool)
    (hr : resultsItems data = Except.ok (x :: rest))
    (hs : pyGet data "size" = JVal.null) (hl : linksNext data = Except.ok b) :
    iterStep limit start data
      = if !b && ((x :: rest).isEmpty || ((x :: rest).length : Int) < limit)
        then Except.ok (x :: rest, none)
        else Except.ok (x :: rest, some (start + ((x :: rest).length : Int))) := by
  unfold iterStep
  rw [hr, hs, hl]
  rfl

/-- With no `"size"` field and a nonempty page, a failing `_links`
lookup propagates. -/
theorem iterStep_no_size_cons_links_error (limit start : Int)
    (data : List (String × JVal)) (x : JVal) (rest : List JVal) (e : String)
    (hr : resultsItems data = Except.ok (x :: rest))
    (hs : pyGet data "size" = JVal.null) (hl : linksNext data = Except.error e) :
    iterStep limit start data = Except.error e := by
  unfold iterStep
  rw [hr, hs, hl]
  rfl

/-- Counterexample to C1: on a response whose results array is empty but
which also carries a `"size"` field and a `"_links.next"` indicator,
the loop does not break — `iterStep` returns `some 0`, i.e. a further
request is issued (at the same offset), and a server constantly
answering this way keeps the paginator requesting until the fuel runs
out, where the claim predicts exactly one request and no further one. -/
theorem iterStep_empty_results_continues :
    extractedResults emptyPageWithSizeAndNext = JVal.list [] ∧
    iterStep 50 0 emptyPageWithSizeAndNext = Except.ok ([], some 0) ∧
    iterate_pages 50 (fun _ => emptyPageWithSizeAndNext) 3 0 = Except.error "fuel" :=
  ⟨rfl, rfl, rfl⟩

/-- C1 amended: the paginator stops on an empty results array — even if
a `"_links.next"` indicator is present — provided the response carries
no `"size"` field; with a `"size"` field present, the empty-results
break is skipped and termination depends on the next-link check alone. -/
theorem iterStep_empty_results_no_size_stops (limit start : Int)
    (data : List (String × JVal)) (hr : resultsItems data = Except.ok [])
    (hs : pyGet data "size" = JVal.null) :
    iterStep limit start data = Except.ok ([], none) := by
  unfold iterStep
  rw [hr, hs]
  rfl

/-- Witness for C1's amended theorem: a response with an empty results
array, no `"size"` field and a next link present stops the loop. -/
theorem iterStep_empty_results_no_size_stops_witness :
    iterStep 50 0
        [("results", JVal.list []), ("_links", JVal.dict [("next", JVal.str "/next")])]
      = Except.ok ([], none) :=
  iterStep_empty_results_no_size_stops 50 0
    [("results", JVal.list []), ("_links", JVal.dict [("next", JVal.str "/next")])] rfl rfl

/-- C2: with a record timestamped exactly `now - T` days, `analyze`
classifies it as NOT stale (strict inequality); one second younger is
also not stale, one second older is stale. -/
theorem analyze_threshold_boundary_strict (pi : String → Option Int)
    (now T t : Int) (s : String) (hT : 0 ≤ T) (hs : s ≠ "")
    (hp : pi s = some t) :
    (t = now - T * 86400 →
      analyze pi now T [whenRecord s] = Except.ok ⟨1, 0, 0⟩) ∧
    (t = now - T * 86400 + 1 →
      analyze pi now T [whenRecord s] = Except.ok ⟨1, 0, 0⟩) ∧
    (t = now - T * 86400 - 1 →
      analyze pi now T [whenRecord s] = Except.ok ⟨1, 1, 100⟩) := by
  have he : s.isEmpty = false := by
    rcases hse : s.isEmpty with _ | _
    · rfl
    · exact absurd ((String.isEmpty_iff s).mp hse) hs
  have hg : get_last_modified pi (whenRecord s) = Except.ok (some t) := by
    rw [get_last_modified_whenRecord pi s he, hp]
  refine ⟨fun ht => ?_, fun ht => ?_, fun ht => ?_⟩
  · have hloop : analyzeLoop pi now T (0, 0) [whenRecord s] = Except.ok (1, 0) := by
      rw [analyzeLoop_cons_some pi now T (0, 0) (whenRecord s) [] t hg,
        if_neg (by omega)]
      rfl
    exact (analyze_eq pi now T [whenRecord s] 1 0 hloop).trans (by norm_num)
  · have hloop : analyzeLoop pi now T (0, 0) [whenRecord s] = Except.ok (1, 0) := by
      rw [analyzeLoop_cons_some pi now T (0, 0) (whenRecord s) [] t hg,
        if_neg (by omega)]
      rfl
    exact (analyze_eq pi now T [whenRecord s] 1 0 hloop).trans (by norm_num)
  · have hloop : analyzeLoop pi now T (0, 0) [whenRecord s] = Except.ok (1, 1) := by
      rw [analyzeLoop_cons_some pi now T (0, 0) (whenRecord s) [] t hg,
        if_pos (by omega)]
      rfl
    exact (analyze_eq pi now T [whenRecord s] 1 1 hloop).trans (by norm_num)

/-- Witness for C2: with threshold 90 days, a record whose timestamp is
exactly 90 days before `now` is not counted stale. -/
theorem analyze_threshold_boundary_strict_witness :
    analyze (fun _ => some 0) (90 * 86400) 90 [whenRecord "1970-01-01T00:00:00Z"]
      = Except.ok ⟨1, 0, 0⟩ :=
  (analyze_threshold_boundary_strict (fun _ => some 0) (90 * 86400) 90 0
    "1970-01-01T00:00:00Z" (by decide) (by decide) rfl).1 (by decide)

/-- C3: a record in the claim's scope — version metadata yields no
timestamp string, or the timestamp string fails to parse — makes
`get_last_modified` return `None` without raising, and `analyze` counts
it once in `total` and once in `stale` (no run-level error). -/
theorem analyze_counts_unparsable_stale (pi : String → Option Int) (now T : Int)
    (item : Item) (hT : 0 ≤ T) (h : noParsableTimestamp pi item = true) :
    get_last_modified pi item = Except.ok none ∧
    analyze pi now T [item] = Except.ok ⟨1, 1, 100⟩ := by
  have hg : get_last_modified pi item = Except.ok none := by
    rcases hv : pyOr (pyGet item "version") (JVal.dict []) with _ | s | n | b | xs | kvs
    · simp [noParsableTimestamp, hv] at h
    · simp [noParsableTimestamp, hv] at h
    · simp [noParsableTimestamp, hv] at h
    · simp [noParsableTimestamp, hv] at h
    · simp [noParsableTimestamp, hv] at h
    · rcases hw : pyGet kvs "when" with _ | s | n | b | xs2 | kvs2
      · simp only [get_last_modified, hv, hw, JVal.truthy]
        simp
      · simp only [noParsableTimestamp, hv, hw] at h
        rcases hse : s.isEmpty with _ | _
        · simp only [hse, Bool.false_or] at h
          have hps : pi s = none := Option.isNone_iff_eq_none.mp h
          simp only [get_last_modified, hv, hw, JVal.truthy, hse, hps]
          simp
        · simp only [get_last_modified, hv, hw, JVal.truthy, hse]
          simp
      · simp only [get_last_modified, hv, hw, JVal.truthy]
        split <;> rfl
      · simp only [get_last_modified, hv, hw, JVal.truthy]
        split <;> rfl
      · simp only [get_last_modified, hv, hw, JVal.truthy]
        split <;> rfl
      · simp only [get_last_modified, hv, hw, JVal.truthy]
        split <;> rfl
  refine ⟨hg, ?_⟩
  have hloop : analyzeLoop pi now T (0, 0) [item] = Except.ok (1, 1) := by
    rw [analyzeLoop_cons_none pi now T (0, 0) item [] hg]
    rfl
  exact (analyze_eq pi now T [item] 1 1 hloop).trans (by norm_num)

/-- Witness for C3: an unparsable timestamp string is counted stale at
threshold 90 without a run-level error. -/
theorem analyze_counts_unparsable_stale_witness :
    noParsableTimestamp (fun _ => none) (whenRecord "not-a-date") = true ∧
    get_last_modified (fun _ => none) (whenRecord "not-a-date") = Except.ok none ∧
    analyze (fun _ => none) 0 90 [whenRecord "not-a-date"] = Except.ok ⟨1, 1, 100⟩ := by
  have hmain := analyze_counts_unparsable_stale (fun _ => none) 0 90
    (whenRecord "not-a-date") (by decide) rfl
  exact ⟨rfl, hmain.1, hmain.2⟩

/-- Counterexample to C4: in a body where `"results"` is present with an
empty array and `"page"` holds one record, the code consults the later
`"page"` field (Python `or` skips falsy values, not just absent ones)
and uses its value, where the claim predicts the present `"results"`
value `[]`. -/
theorem extractedResults_skips_present_falsy_field :
    dictGet emptyResultsThenPage "results" = some (JVal.list []) ∧
    extractedResults emptyResultsThenPage = JVal.list [JVal.dict []] ∧
    (extractedResults emptyResultsThenPage).truthy = true :=
  ⟨rfl, rfl, rfl⟩

/-- C4 amended: the extraction uses the first truthy (non-absent and
non-falsy) candidate among `"results"`, `"page"`, `"values"`; a present
but falsy earlier field is skipped; when all three are falsy the result
is the `"values"` value unless that is `None`, in which case it falls
back to `data.get("results", [])`. -/
theorem extractedResults_first_truthy (data : List (String × JVal)) :
    ((pyGet data "results").truthy = true →
      extractedResults data = pyGet data "results") ∧
    ((pyGet data "results").truthy = false → (pyGet data "page").truthy = true →
      extractedResults data = pyGet data "page") ∧
    ((pyGet data "results").truthy = false → (pyGet data "page").truthy = false →
      (pyGet data "values").truthy = true →
      extractedResults data = pyGet data "values") ∧
    ((pyGet data "results").truthy = false → (pyGet data "page").truthy = false →
      (pyGet data "values").truthy = false →
      extractedResults data
        = if (pyGet data "values").isNull = true
          then pyGetD data "results" (JVal.list [])
          else pyGet data "values") := by
  refine ⟨fun h1 => ?_, fun h1 h2 => ?_, fun h1 h2 h3 => ?_, fun h1 h2 h3 => ?_⟩
  · rw [extractedResults_eq_ite data, pyOr_truthy _ _ h1, truthy_not_null _ h1]
    simp
  · rw [extractedResults_eq_ite data, pyOr_falsy _ _ h1, pyOr_truthy _ _ h2,
      truthy_not_null _ h2]
    simp
  · rw [extractedResults_eq_ite data, pyOr_falsy _ _ h1, pyOr_falsy _ _ h2,
      truthy_not_null _ h3]
    simp
  · rw [extractedResults_eq_ite data, pyOr_falsy _ _ h1, pyOr_falsy _ _ h2]

/-- Witness for C4's amended theorem: a truthy `"results"` value is used
as-is. -/
theorem extractedResults_first_truthy_witness :
    extractedResults [("results", JVal.list [JVal.null])]
      = pyGet [("results", JVal.list [JVal.null])] "results" :=
  (extractedResults_first_truthy [("results", JVal.list [JVal.null])]).1 rfl

/-- C6: whenever the pagination loop goes on to a further request, the
new offset is the old one plus the numeric `"size"` field when present,
and plus the number of records actually returned when `"size"` is
absent. -/
theorem iterStep_offset_advance (limit start : Int) (data : List (String × JVal))
    (items : List JVal) (nxt : Int)
    (h : iterStep limit start data = Except.ok (items, some nxt)) :
    (∀ n : Int, pyGet data "size" = JVal.num n → nxt = start + n) ∧
    (pyGet data "size" = JVal.null → nxt = start + items.length) := by
  constructor
  · intro n hn
    rcases hr : resultsItems data with e | xs
    · rw [iterStep_results_error limit start data e hr] at h
      cases h
    · rcases hl : linksNext data with e | b
      · rw [iterStep_num_links_error limit start data xs n e hr hn hl] at h
        cases h
      · rw [iterStep_num_size limit start data xs n b hr hn hl] at h
        split at h
        · simp at h
        · simp only [Except.ok.injEq, Prod.mk.injEq, Option.some.injEq] at h
          obtain ⟨h1, h2⟩ := h
          omega
  · intro hnull
    rcases hr : resultsItems data with e | xs
    · rw [iterStep_results_error limit start data e hr] at h
      cases h
    · cases xs with
      | nil =>
        have hmid : iterStep limit start data = Except.ok ([], none) := by
          unfold iterStep
          rw [hr, hnull]
          rfl
        rw [hmid] at h
        simp at h
      | cons x rest =>
        rcases hl : linksNext data with e | b
        · rw [iterStep_no_size_cons_links_error limit start data x rest e hr hnull hl] at h
          cases h
        · rw [iterStep_no_size_cons limit start data x rest b hr hnull hl] at h
          split at h
          · simp at h
          · simp only [Except.ok.injEq, Prod.mk.injEq, Option.some.injEq] at h
            obtain ⟨h1, h2⟩ := h
            subst h1
            omega

/-- Witness for C6: a page of two records with `"size" = 2` at offset 10
advances to offset 12 = 10 + 2. -/
theorem iterStep_offset_advance_witness :
    iterStep 50 10 twoRecordPageWithSize
      = Except.ok ([JVal.dict [], JVal.dict []], some 12) ∧ (12 : Int) = 10 + 2 :=
  ⟨rfl, (iterStep_offset_advance 50 10 twoRecordPageWithSize
    [JVal.dict [], JVal.dict []] 12 rfl).1 2 rfl⟩
